import Mathlib

/-!
# Verification of the stock-tracker alert/tracking core

Shallow embedding of `stock_tracker.py` (class `StockTracker`): the quote
fetch with its price-fallback chain (`get_stock_data`), the sample store
(`store_stock_data`, `get_historical_data`), the alert registry
(`create_alert`, `get_active_alerts`, `deactivate_alert`), alert
evaluation and notification dispatch (`check_alerts`), and the tracking
loop (`start_tracking` / `stop_tracking`).

Modelling choices:
* Prices, thresholds and percentages are `ℚ` (the Python code uses
  floats; all claims under study are order/algebraic and do not hinge on
  binary-float artefacts except where rounding is modelled explicitly).
* Python truthiness of an optional float (`None` and `0.0` are falsy) is
  modelled by `truthyOpt`; Python `a or b` on optional floats by `pyOr`.
* Python `round(x, 2)` (round-half-to-even to two decimals) is modelled
  by `round2` built on `roundTE` (ties to even).
* `datetime` values are modelled by the `Datetime` record; SQLite's
  `ORDER BY timestamp` on zero-padded datetime strings is chronological,
  modelled by comparing the lexicographic key `Datetime.toKey`.
* Rows of the SQLite tables are Lean lists in insertion order; the
  `AUTOINCREMENT` id column is modelled by `next_alert_id`.
* Functions that swallow exceptions and return a sentinel are total
  functions returning that sentinel (`Option`, unchanged state).
-/

set_option maxRecDepth 8000

namespace StockTrackerPro

/-- The `alert_type` strings accepted by `check_alerts`
(`'above'`, `'below'`, `'change_above'`, `'change_below'`). -/
inductive AlertKind where
  | above
  | below
  | change_above
  | change_below
deriving DecidableEq, Repr

/-- The string stored in the `alert_type` column for each kind. -/
def AlertKind.str : AlertKind → String
  | .above => "above"
  | .below => "below"
  | .change_above => "change_above"
  | .change_below => "change_below"

/-- A `datetime` value as used for quote timestamps
(`datetime.now()`) and row timestamps. -/
structure Datetime where
  year : ℕ
  month : ℕ
  day : ℕ
  hour : ℕ
  minute : ℕ
  second : ℕ
deriving DecidableEq, Repr

/-- Lexicographic key of a datetime: comparing keys is the order SQLite
uses on zero-padded `YYYY-MM-DD HH:MM:SS` strings. -/
def Datetime.toKey (d : Datetime) : ℕ :=
  ((((d.year * 13 + d.month) * 32 + d.day) * 24 + d.hour) * 60 + d.minute) * 60
    + d.second

/-- Zero-pad a number to two digits (`strftime` field). -/
def pad2 (n : ℕ) : String :=
  if n < 10 then "0" ++ toString n else toString n

/-- Zero-pad a number to four digits (`strftime` `%Y`). -/
def pad4 (n : ℕ) : String :=
  if n < 10 then "000" ++ toString n
  else if n < 100 then "00" ++ toString n
  else if n < 1000 then "0" ++ toString n
  else toString n

/-- `timestamp.strftime('%Y-%m-%d %H:%M:%S')`. -/
def Datetime.strftime (d : Datetime) : String :=
  pad4 d.year ++ "-" ++ pad2 d.month ++ "-" ++ pad2 d.day ++ " "
    ++ pad2 d.hour ++ ":" ++ pad2 d.minute ++ ":" ++ pad2 d.second

/-- Truthiness of an optional float in Python: `None` and `0.0` are
falsy, every other value is truthy. -/
def truthyOpt : Option ℚ → Bool
  | none => false
  | some x => decide (x ≠ 0)

/-- Python `a or b` on optional floats: the first operand when it is
truthy, otherwise the second operand. -/
def pyOr (a b : Option ℚ) : Option ℚ :=
  if truthyOpt a then a else b

/-- Python `symbol.upper()`: upper-case every character (defined by
structural recursion over the characters so proofs can evaluate it;
ticker symbols are ASCII). -/
def pyUpper (s : String) : String :=
  ⟨s.data.map Char.toUpper⟩

/-- Round-half-to-even to the nearest integer (Python's `round`). -/
def roundTE (q : ℚ) : ℤ :=
  if q - (⌊q⌋ : ℚ) = 1 / 2 then (if ⌊q⌋ % 2 = 0 then ⌊q⌋ else ⌊q⌋ + 1)
  else ⌊q + 1 / 2⌋

/-- Python `round(x, 2)`: round to the nearest multiple of `1/100`,
ties to even. -/
def round2 (q : ℚ) : ℚ :=
  (roundTE (q * 100) : ℚ) / 100

/-- The subset of the yfinance `ticker.info` dictionary read by
`get_stock_data`.  `none` models a missing key. -/
structure Info where
  currentPrice : Option ℚ
  regularMarketPrice : Option ℚ
  previousClose : Option ℚ
  volume : Option ℤ
  marketCap : Option ℚ
  trailingPE : Option ℚ
deriving DecidableEq, Repr

/-- The quote dictionary returned by `get_stock_data`. -/
structure Quote where
  symbol : String
  price : ℚ
  change : ℚ
  change_percent : ℚ
  volume : ℤ
  market_cap : Option ℚ
  pe_ratio : Option ℚ
  timestamp : Datetime
deriving DecidableEq, Repr

/-- A row of the `stocks` table (a persisted sample). -/
structure Sample where
  symbol : String
  price : ℚ
  change_percent : ℚ
  volume : ℤ
  timestamp : Datetime
deriving DecidableEq, Repr

/-- A row of the `alerts` table. -/
structure AlertRule where
  id : ℕ
  symbol : String
  alert_type : AlertKind
  threshold : ℚ
  email : Option String
  telegram_chat_id : Option String
  is_active : Bool
  created_at : Datetime
deriving DecidableEq, Repr

/-- The SQLite database: the three tables, plus the autoincrement
counter of the `alerts` table (SQLite never reuses an id, and no row of
`alerts` is ever deleted). -/
structure DB where
  stocks : List Sample
  alerts : List AlertRule
  watchlist : List String
  next_alert_id : ℕ
deriving DecidableEq, Repr

/-- Price resolution of `get_stock_data` (lines 119-126):
`current_price = info.get('currentPrice') or info.get('regularMarketPrice')`,
and when that is falsy, the last close of the 1-day/1-minute history,
or `None` when the history is empty. -/
def resolvePrice (info : Info) (hist : List ℚ) : Option ℚ :=
  let cp := pyOr info.currentPrice info.regularMarketPrice
  if truthyOpt cp then cp
  else hist.getLast?

/-- `change = current_price - previous_close` with
`previous_close = info.get('previousClose', current_price)`
(line 128-129). -/
def changeOf (p : ℚ) (prevClose : Option ℚ) : ℚ :=
  p - prevClose.getD p

/-- `change_percent = (change / previous_close) * 100 if previous_close
else 0` (lines 128-130); the guard is Python truthiness, so a zero
previous close yields 0. -/
def changePercentOf (p : ℚ) (prevClose : Option ℚ) : ℚ :=
  let pc := prevClose.getD p
  if pc ≠ 0 then ((p - pc) / pc) * 100 else 0

/-- `get_stock_data` (lines 112-144): resolve the price through the
fallback chain, derive change and change-percent, round to two decimals
and build the quote dictionary.  `none` models the `return None` paths
(the network-exception path of the `try` block is modelled at the loop
level by the fetch oracle). -/
def get_stock_data (symbol : String) (info : Info) (hist : List ℚ)
    (now : Datetime) : Option Quote :=
  match resolvePrice info hist with
  | none => none
  | some current_price =>
    some
      { symbol := pyUpper symbol
        price := round2 current_price
        change := round2 (changeOf current_price info.previousClose)
        change_percent := round2 (changePercentOf current_price info.previousClose)
        volume := info.volume.getD 0
        market_cap := info.marketCap
        pe_ratio := info.trailingPE
        timestamp := now }

/-- `store_stock_data` (lines 146-164): one atomic `INSERT` into
`stocks` of the quote's symbol, price, change_percent, volume and
timestamp. -/
def store_stock_data (db : DB) (q : Quote) : DB :=
  { db with
    stocks := db.stocks ++
      [{ symbol := q.symbol, price := q.price,
         change_percent := q.change_percent, volume := q.volume,
         timestamp := q.timestamp }] }

/-- `create_alert` (lines 166-182): `INSERT INTO alerts` with the
symbol upper-cased, `is_active` defaulting to 1 and the id drawn from
the autoincrement counter. -/
def create_alert (db : DB) (symbol : String) (k : AlertKind) (threshold : ℚ)
    (email telegram_chat_id : Option String) (now : Datetime) : DB :=
  { db with
    alerts := db.alerts ++
      [{ id := db.next_alert_id, symbol := pyUpper symbol, alert_type := k,
         threshold := threshold, email := email,
         telegram_chat_id := telegram_chat_id, is_active := true,
         created_at := now }]
    next_alert_id := db.next_alert_id + 1 }

/-- `get_active_alerts` (lines 184-206):
`SELECT * FROM alerts WHERE is_active = 1`. -/
def get_active_alerts (db : DB) : List AlertRule :=
  db.alerts.filter (·.is_active)

/-- `deactivate_alert` (lines 306-316):
`UPDATE alerts SET is_active = 0 WHERE id = ?`. -/
def deactivate_alert (db : DB) (alert_id : ℕ) : DB :=
  { db with
    alerts := db.alerts.map
      (fun r => if r.id = alert_id then { r with is_active := false } else r) }

/-- `add_to_watchlist` (lines 71-83): `INSERT OR IGNORE` of the
upper-cased symbol. -/
def add_to_watchlist (db : DB) (symbol : String) : DB :=
  if pyUpper symbol ∈ db.watchlist then db
  else { db with watchlist := db.watchlist ++ [pyUpper symbol] }

/-- `remove_from_watchlist` (lines 85-97). -/
def remove_from_watchlist (db : DB) (symbol : String) : DB :=
  { db with watchlist := db.watchlist.filter (· ≠ pyUpper symbol) }

/-- `get_watchlist` (lines 99-110). -/
def get_watchlist (db : DB) : List String :=
  db.watchlist

/-! ## Alert evaluation and notification (`check_alerts`, lines 254-304) -/

/-- The `elif` chain of `check_alerts` (lines 262-272): the inclusive
comparison for the rule's kind, on the quote's price or change-percent. -/
def triggeredFor (alert : AlertRule) (stock : Quote) : Bool :=
  match alert.alert_type with
  | .above => decide (stock.price ≥ alert.threshold)
  | .below => decide (stock.price ≤ alert.threshold)
  | .change_above => decide (stock.change_percent ≥ alert.threshold)
  | .change_below => decide (stock.change_percent ≤ alert.threshold)

/-- The full per-rule decision of `check_alerts`: rules for another
symbol are skipped (`continue`, line 259-260), otherwise the kind's
inclusive comparison decides. -/
def evalAlert (alert : AlertRule) (stock : Quote) : Bool :=
  if alert.symbol ≠ stock.symbol then false
  else triggeredFor alert stock

/-- Model of CPython `str(float)` for the two-decimal values this
program prints: the shortest decimal rendering, keeping at least one
digit after the point (`str(200.0) = "200.0"`, `str(199.99) = "199.99"`).
The argument is first rounded to a multiple of `1/100` (every value the
program prints already is one). -/
def pyFloatStr (q : ℚ) : String :=
  let n := roundTE (q * 100)
  let sign := if n < 0 then "-" else ""
  let m := n.natAbs
  let ip := m / 100
  let fr := m % 100
  if fr = 0 then sign ++ toString ip ++ ".0"
  else if fr % 10 = 0 then sign ++ toString ip ++ "." ++ toString (fr / 10)
  else
    sign ++ toString ip ++ "." ++ (if fr < 10 then "0" else "") ++ toString fr

/-- Python `f"{x:+.2f}"`: explicit sign and exactly two decimals. -/
def fmtSigned2 (q : ℚ) : String :=
  let m := (roundTE (q * 100)).natAbs
  (if q < 0 then "-" else "+") ++ toString (m / 100) ++ "."
    ++ (if m % 100 < 10 then "0" else "") ++ toString (m % 100)

/-- The alert message of `check_alerts` (lines 275-284), after
`.strip()`.  `Current Price`, `Threshold` use plain `str()` of the
float; `Change` and the percentage use `:+.2f`. -/
def alertMessage (alert : AlertRule) (stock : Quote) : String :=
  "🚨 Stock Alert Triggered! 🚨\n\nSymbol: " ++ stock.symbol
    ++ "\nCurrent Price: " ++ ("$" ++ pyFloatStr stock.price)
    ++ "\nChange: " ++ fmtSigned2 stock.change
    ++ " (" ++ (fmtSigned2 stock.change_percent ++ "%")
    ++ ")\nAlert Type: " ++ (alert.alert_type).str
    ++ "\nThreshold: " ++ pyFloatStr alert.threshold
    ++ "\nTime: " ++ (stock.timestamp).strftime

/-- Email configuration dictionary (`email_config`); only its presence
matters to control flow. -/
structure EmailConfig where
  smtp_server : String
  smtp_port : ℕ
  sender_email : String
  sender_password : String
deriving DecidableEq, Repr

/-- Telegram configuration dictionary (`telegram_config`). -/
structure TelegramConfig where
  bot_token : String
deriving DecidableEq, Repr

/-- Externally observable actions of `check_alerts`.  The `ok` field of
a notification records the boolean the transport returned
(`send_email_alert` / `send_telegram_alert` catch every exception and
return `False` on failure); it is ignored by the caller. -/
inductive Event where
  | email (dest : String) (subject : String) (message : String) (ok : Bool)
  | telegram (chat_id : String) (message : String) (ok : Bool)
  | deact (alert_id : ℕ)
deriving DecidableEq, Repr

/-- The body of the `for alert in alerts` loop of `check_alerts`
(lines 258-304) for one rule: skip on symbol mismatch, otherwise when
triggered send the email (when the rule has an email destination and an
email config is given), send the Telegram message (when the rule has a
chat id and a telegram config is given), then deactivate the rule.
`emailOk` / `telegramOk` are oracles for the transports' outcomes. -/
def processAlert (stock : Quote) (ec : Option EmailConfig)
    (tc : Option TelegramConfig) (emailOk telegramOk : String → Bool)
    (acc : DB × List Event) (alert : AlertRule) : DB × List Event :=
  if alert.symbol ≠ stock.symbol then acc
  else if triggeredFor alert stock then
    let msg := alertMessage alert stock
    let evE : List Event :=
      match alert.email, ec with
      | some e, some _ =>
        [Event.email e ("Stock Alert: " ++ stock.symbol) msg (emailOk e)]
      | _, _ => []
    let evT : List Event :=
      match alert.telegram_chat_id, tc with
      | some c, some _ => [Event.telegram c msg (telegramOk c)]
      | _, _ => []
    (deactivate_alert acc.1 alert.id, acc.2 ++ evE ++ evT ++ [Event.deact alert.id])
  else acc

/-- `check_alerts` (lines 254-304): snapshot the active alerts once,
then process each in order, threading the database (deactivations) and
collecting the emitted events. -/
def check_alerts (db : DB) (stock : Quote) (ec : Option EmailConfig)
    (tc : Option TelegramConfig) (emailOk telegramOk : String → Bool) :
    DB × List Event :=
  (get_active_alerts db).foldl (processAlert stock ec tc emailOk telegramOk)
    (db, [])

/-! ## The tracking loop (`start_tracking` / `stop_tracking`,
lines 482-506) -/

/-- The in-memory tracker state: the database plus the
`tracking_active` flag read at the top of each cycle. -/
structure TrackerState where
  db : DB
  tracking_active : Bool
deriving DecidableEq, Repr

/-- One iteration of the `for symbol in watchlist` loop inside `track`
(lines 490-495): fetch (the oracle `f` stands for `get_stock_data`,
`none` covering both `NotAvailable` and a fetch error), and on success
store the sample and check the alerts. -/
def processSymbol (f : String → Option Quote) (ec : Option EmailConfig)
    (tc : Option TelegramConfig) (emailOk telegramOk : String → Bool)
    (acc : TrackerState × List Event) (symbol : String) :
    TrackerState × List Event :=
  match f symbol with
  | none => acc
  | some stock_data =>
    let db1 := store_stock_data acc.1.db stock_data
    let r := check_alerts db1 stock_data ec tc emailOk telegramOk
    ({ acc.1 with db := r.1 }, acc.2 ++ r.2)

/-- The per-symbol traversal of one cycle over a given symbol list. -/
def runCycleSyms (f : String → Option Quote) (ec : Option EmailConfig)
    (tc : Option TelegramConfig) (emailOk telegramOk : String → Bool)
    (acc : TrackerState × List Event) (syms : List String) :
    TrackerState × List Event :=
  syms.foldl (processSymbol f ec tc emailOk telegramOk) acc

/-- One full tracking cycle (lines 487-495): read the watchlist, then
process every symbol in order. -/
def runCycle (f : String → Option Quote) (ec : Option EmailConfig)
    (tc : Option TelegramConfig) (emailOk telegramOk : String → Bool)
    (st : TrackerState) : TrackerState × List Event :=
  runCycleSyms f ec tc emailOk telegramOk (st, []) (get_watchlist st.db)

/-- The `while self.tracking_active` loop of `track` (lines 487-497),
run for `n` cycle opportunities: each iteration first reads the flag
and stops when it is false. -/
def loopSteps (f : String → Option Quote) (ec : Option EmailConfig)
    (tc : Option TelegramConfig) (emailOk telegramOk : String → Bool) :
    ℕ → TrackerState → TrackerState
  | 0, st => st
  | n + 1, st =>
    if st.tracking_active then
      loopSteps f ec tc emailOk telegramOk n
        (runCycle f ec tc emailOk telegramOk st).1
    else st

/-- `start_tracking` (lines 482-501): sets the flag. -/
def start_tracking (st : TrackerState) : TrackerState :=
  { st with tracking_active := true }

/-- `stop_tracking` (lines 503-506): clears the flag, which the loop
observes at its next cycle boundary. -/
def stop_tracking (st : TrackerState) : TrackerState :=
  { st with tracking_active := false }

/-! ## Historical query (`get_historical_data`, lines 318-339) -/

/-- The `ORDER BY timestamp` order on samples. -/
def sampleLE (a b : Sample) : Prop :=
  a.timestamp.toKey ≤ b.timestamp.toKey

instance : DecidableRel sampleLE :=
  fun a b => Nat.decLe a.timestamp.toKey b.timestamp.toKey

instance : IsTotal Sample sampleLE :=
  ⟨fun a b => Nat.le_total a.timestamp.toKey b.timestamp.toKey⟩

instance : IsTrans Sample sampleLE :=
  ⟨fun _ _ _ hab hbc => Nat.le_trans hab hbc⟩

/-- `get_historical_data` (lines 318-339):
`SELECT * FROM stocks WHERE symbol = ? AND timestamp >= ? ORDER BY timestamp`
for the upper-cased symbol and the cutoff timestamp.  The query is
read-only, so the database is returned unchanged alongside the result
rows. -/
def get_historical_data (db : DB) (symbol : String) (cutoff : Datetime) :
    List Sample × DB :=
  (((db.stocks.filter
      (fun r => decide (r.symbol = pyUpper symbol)
        && decide (cutoff.toKey ≤ r.timestamp.toKey))).insertionSort sampleLE),
   db)

/-! ## Price-resolution comparison definitions (for the C5 claim) -/

/-- Price resolution as the C5 claim words it (refinement comparison,
written from the claim, NOT from the source): use the provider's
live/regular-market price field; if that is absent, the most recent
intraday close; if neither yields a price, `NotAvailable`. -/
def resolvePriceClaim (info : Info) (hist : List ℚ) : Option ℚ :=
  match info.currentPrice with
  | some p => some p
  | none =>
    match info.regularMarketPrice with
    | some p => some p
    | none => hist.getLast?

/-- Price resolution as the amended C5 claim words it: a zero price
field is treated like a missing one (Python truthiness), so the live
price is used only when present and nonzero, then the regular-market
price when present and nonzero, then the most recent intraday close
(even if zero), and otherwise `NotAvailable`. -/
def resolvePriceAmended (info : Info) (hist : List ℚ) : Option ℚ :=
  match info.currentPrice with
  | some p =>
    if p ≠ 0 then some p
    else
      match info.regularMarketPrice with
      | some r => if r ≠ 0 then some r else hist.getLast?
      | none => hist.getLast?
  | none =>
    match info.regularMarketPrice with
    | some r => if r ≠ 0 then some r else hist.getLast?
    | none => hist.getLast?

/-! ## Theorems -/

/-- For a rule on the quote's own symbol, the `continue` guard of
`check_alerts` does not fire and the kind comparison decides. -/
theorem evalAlert_of_symbol_eq (a : AlertRule) (q : Quote)
    (h : a.symbol = q.symbol) : evalAlert a q = triggeredFor a q := by
  unfold evalAlert
  exact if_neg (by simpa using h)

/-- The `elif` chain decides exactly the inclusive comparison of the
rule's kind. -/
theorem triggeredFor_eq (a : AlertRule) (q : Quote) :
    (triggeredFor a q = true ↔
      match a.alert_type with
      | .above => q.price ≥ a.threshold
      | .below => q.price ≤ a.threshold
      | .change_above => q.change_percent ≥ a.threshold
      | .change_below => q.change_percent ≤ a.threshold) := by
  obtain ⟨i, s, k, th, em, tg, act, cr⟩ := a
  cases k <;> simp [triggeredFor]

/-- C1: for every quote and every alert rule whose symbol equals the
quote's symbol, `check_alerts` triggers the rule iff the inclusive
comparison for its kind holds (`above`: price ≥ threshold, `below`:
price ≤ threshold, `change_above`: change_percent ≥ threshold,
`change_below`: change_percent ≤ threshold); a quote exactly at the
threshold triggers, and a rule whose symbol differs from the quote's is
never triggered.  (`evalAlert` is the per-rule decision `check_alerts`
applies to each rule of `get_active_alerts`; the spec's kinds
`price_above`/`price_below` are the code's `'above'`/`'below'`.) -/
theorem evalAlert_inclusive_comparisons (a : AlertRule) (q : Quote) :
    (a.symbol ≠ q.symbol → evalAlert a q = false) ∧
    (a.symbol = q.symbol →
      ((evalAlert a q = true ↔
          match a.alert_type with
          | .above => q.price ≥ a.threshold
          | .below => q.price ≤ a.threshold
          | .change_above => q.change_percent ≥ a.threshold
          | .change_below => q.change_percent ≤ a.threshold) ∧
       ((a.alert_type = .above ∨ a.alert_type = .below) →
          q.price = a.threshold → evalAlert a q = true) ∧
       ((a.alert_type = .change_above ∨ a.alert_type = .change_below) →
          q.change_percent = a.threshold → evalAlert a q = true))) := by
  obtain ⟨i, s, k, th, em, tg, act, cr⟩ := a
  constructor
  · intro h
    simp [evalAlert, h]
  · intro h
    have he : evalAlert ⟨i, s, k, th, em, tg, act, cr⟩ q
        = triggeredFor ⟨i, s, k, th, em, tg, act, cr⟩ q := by
      unfold evalAlert
      exact if_neg (by simpa using h)
    refine ⟨?_, ?_, ?_⟩
    · rw [he]
      cases k <;> simp [triggeredFor]
    · rintro (hk | hk) hp <;> rw [he] <;> simp at hk <;>
        simp [triggeredFor, hk, hp]
    · rintro (hk | hk) hp <;> rw [he] <;> simp at hk <;>
        simp [triggeredFor, hk, hp]

/-- Witness for C1: a rule exactly at the threshold triggers, and the
same quote never triggers a rule for a different symbol. -/
theorem evalAlert_inclusive_comparisons_witness :
    evalAlert
        { id := 1, symbol := "AAPL", alert_type := .above, threshold := 200,
          email := none, telegram_chat_id := none, is_active := true,
          created_at := ⟨2026, 1, 1, 0, 0, 0⟩ }
        { symbol := "AAPL", price := 200, change := 1, change_percent := 1,
          volume := 10, market_cap := none, pe_ratio := none,
          timestamp := ⟨2026, 1, 2, 0, 0, 0⟩ } = true ∧
    evalAlert
        { id := 2, symbol := "TSLA", alert_type := .above, threshold := 0,
          email := none, telegram_chat_id := none, is_active := true,
          created_at := ⟨2026, 1, 1, 0, 0, 0⟩ }
        { symbol := "AAPL", price := 200, change := 1, change_percent := 1,
          volume := 10, market_cap := none, pe_ratio := none,
          timestamp := ⟨2026, 1, 2, 0, 0, 0⟩ } = false := by
  constructor
  · exact ((evalAlert_inclusive_comparisons _ _).2 rfl).2.1 (Or.inl rfl) rfl
  · exact (evalAlert_inclusive_comparisons _ _).1 (by decide)

/-- C6: the derived change-percent of `get_stock_data` (lines 128-130)
equals `(price - previous_close) / previous_close * 100`; when the
previous close is zero the result is `0` (not a division error), and
when it is absent it defaults to the current price, so the change and
the change-percent are both `0`.  (The quote then stores these values
rounded to two decimals; see the C10 theorem.) -/
theorem changePercent_formula (p pc : ℚ) :
    (pc ≠ 0 → changePercentOf p (some pc) = ((p - pc) / pc) * 100) ∧
    changePercentOf p (some 0) = 0 ∧
    changePercentOf p none = 0 ∧
    changeOf p none = 0 := by
  refine ⟨fun h => ?_, ?_, ?_, ?_⟩
  · simp [changePercentOf, h]
  · simp [changePercentOf]
  · simp [changePercentOf, sub_self]
  · simp [changeOf]

/-- Witness for C6 at price 110, previous close 100 (and zero /
absent previous close). -/
theorem changePercent_formula_witness :
    (110 - 100 : ℚ) / 100 * 100 = 10 ∧
    changePercentOf 110 (some 100) = ((110 - 100 : ℚ) / 100) * 100 ∧
    changePercentOf 110 (some 0) = 0 ∧
    changePercentOf 110 none = 0 := by
  refine ⟨by norm_num, ?_, ?_, ?_⟩
  · exact (changePercent_formula 110 100).1 (by norm_num)
  · exact (changePercent_formula 110 100).2.1
  · exact (changePercent_formula 110 100).2.2.1

/-- C7: `deactivate_alert` is idempotent — deactivating the same id a
second time is a no-op that leaves the database in the same end state
(the rule inactive); the function is total, so the second call
produces no error. -/
theorem deactivate_alert_idempotent (db : DB) (i : ℕ) :
    deactivate_alert (deactivate_alert db i) i = deactivate_alert db i := by
  unfold deactivate_alert
  simp only [List.map_map]
  congr 1
  refine List.map_congr_left ?_
  intro r _
  by_cases h : r.id = i <;> simp [Function.comp, h]

/-- C8: `get_historical_data` returns samples in non-decreasing
timestamp order, leaves the store unchanged, and is restartable:
re-querying with the same inputs and no intervening writes returns the
identical sequence. -/
theorem get_historical_data_sorted_restartable (db : DB) (symbol : String)
    (cutoff : Datetime) :
    (get_historical_data db symbol cutoff).1.Pairwise sampleLE ∧
    (get_historical_data db symbol cutoff).2 = db ∧
    get_historical_data (get_historical_data db symbol cutoff).2 symbol cutoff
      = get_historical_data db symbol cutoff := by
  refine ⟨?_, rfl, rfl⟩
  exact List.sorted_insertionSort sampleLE _

/-- C5 counterexample: with `currentPrice = 0`, `regularMarketPrice = 0`
and an empty history window, the provider's price field is present, so
the claim's fallback chain yields the price `0`, but the code's
truthiness test (`if not current_price`) treats the zero price as
missing and `get_stock_data` returns `NotAvailable`. -/
theorem resolvePrice_claim_counterexample :
    resolvePrice ⟨some 0, some 0, none, none, none, none⟩ [] = none ∧
    resolvePriceClaim ⟨some 0, some 0, none, none, none, none⟩ [] = some 0 ∧
    resolvePrice ⟨some 0, some 0, none, none, none, none⟩ []
      ≠ resolvePriceClaim ⟨some 0, some 0, none, none, none, none⟩ [] := by
  refine ⟨by decide, by decide, by decide⟩

/-- C5 (amended): `get_stock_data` resolves the current price by the
fallback chain in which a *zero* price field counts as absent (Python
truthiness): the live price when present and nonzero, else the
regular-market price when present and nonzero, else the most recent
intraday close of the short historical window, and `NotAvailable`
(`None`, not an exception) when the info fields are missing or zero
and the history is empty. -/
theorem resolvePrice_eq_amended (info : Info) (hist : List ℚ) :
    resolvePrice info hist = resolvePriceAmended info hist := by
  obtain ⟨cp, rp, pc, v, mc, pe⟩ := info
  cases cp with
  | none =>
    cases rp with
    | none => simp [resolvePrice, resolvePriceAmended, pyOr, truthyOpt]
    | some r =>
      by_cases hr : r = 0 <;>
        simp [resolvePrice, resolvePriceAmended, pyOr, truthyOpt, hr]
  | some c =>
    by_cases hc : c = 0
    · cases rp with
      | none => simp [resolvePrice, resolvePriceAmended, pyOr, truthyOpt, hc]
      | some r =>
        by_cases hr : r = 0 <;>
          simp [resolvePrice, resolvePriceAmended, pyOr, truthyOpt, hc, hr]
    · simp [resolvePrice, resolvePriceAmended, pyOr, truthyOpt, hc]

/-- C2: for every rule that triggers during `check_alerts`, the loop
body first attempts the notifications and then deactivates the rule:
the email transport is attempted exactly when the rule has an email
destination and an email config is supplied, the Telegram transport
exactly when the rule has a chat id and a telegram config is supplied
— each independently of the other's outcome (the right-hand side of
the equation does not depend on the outcome oracles `emailOk` /
`telegramOk`, which only appear recorded inside the events) — and the
database is deactivated last, whatever the transports returned
(`send_email_alert` / `send_telegram_alert` swallow their exceptions
and return a boolean the caller ignores). -/
theorem processAlert_notify_then_deactivate (stock : Quote)
    (ec : Option EmailConfig) (tc : Option TelegramConfig)
    (emailOk telegramOk : String → Bool) (db : DB) (evs : List Event)
    (alert : AlertRule) (hsym : alert.symbol = stock.symbol)
    (htrig : triggeredFor alert stock = true) :
    processAlert stock ec tc emailOk telegramOk (db, evs) alert
      = (deactivate_alert db alert.id,
         evs
           ++ (match alert.email, ec with
               | some e, some _ =>
                 [Event.email e ("Stock Alert: " ++ stock.symbol)
                   (alertMessage alert stock) (emailOk e)]
               | _, _ => [])
           ++ (match alert.telegram_chat_id, tc with
               | some c, some _ =>
                 [Event.telegram c (alertMessage alert stock) (telegramOk c)]
               | _, _ => [])
           ++ [Event.deact alert.id]) := by
  unfold processAlert
  rw [if_neg (by simpa using hsym), if_pos htrig]

/-- A concrete rule with both destinations, used by the C2 witness. -/
def c2Alert : AlertRule :=
  { id := 7, symbol := "AAPL", alert_type := .above, threshold := 100,
    email := some "user@example.com",
    telegram_chat_id := some "123456789", is_active := true,
    created_at := ⟨2026, 1, 1, 0, 0, 0⟩ }

/-- A concrete quote above that rule's threshold, used by the C2
witness. -/
def c2Stock : Quote :=
  { symbol := "AAPL", price := 150, change := 2, change_percent := 1,
    volume := 10, market_cap := none, pe_ratio := none,
    timestamp := ⟨2026, 1, 2, 9, 30, 0⟩ }

/-- A concrete database holding that rule, used by the C2 witness. -/
def c2DB : DB := ⟨[], [c2Alert], ["AAPL"], 8⟩

/-- Witness for C2: a rule with both destinations and both configs,
whose email transport fails (`emailOk ≡ false`): the Telegram attempt
still happens and the rule is still deactivated, after the
notification attempts. -/
theorem processAlert_notify_then_deactivate_witness :
    processAlert c2Stock (some ⟨"smtp.gmail.com", 587, "s", "p"⟩)
        (some ⟨"TOKEN"⟩) (fun _ => false) (fun _ => true) (c2DB, []) c2Alert
      = (deactivate_alert c2DB 7,
         [Event.email "user@example.com" "Stock Alert: AAPL"
            (alertMessage c2Alert c2Stock) false,
          Event.telegram "123456789" (alertMessage c2Alert c2Stock) true,
          Event.deact 7]) := by
  exact processAlert_notify_then_deactivate _ _ _ _ _ _ _ _ rfl (by decide)

/-- One symbol's processing never touches the `tracking_active` flag. -/
theorem processSymbol_tracking_active (f : String → Option Quote)
    (ec : Option EmailConfig) (tc : Option TelegramConfig)
    (emailOk telegramOk : String → Bool) (acc : TrackerState × List Event)
    (sym : String) :
    (processSymbol f ec tc emailOk telegramOk acc sym).1.tracking_active
      = acc.1.tracking_active := by
  unfold processSymbol
  cases f sym <;> simp

/-- A whole per-symbol traversal never touches the `tracking_active`
flag. -/
theorem runCycleSyms_tracking_active (f : String → Option Quote)
    (ec : Option EmailConfig) (tc : Option TelegramConfig)
    (emailOk telegramOk : String → Bool) :
    ∀ (syms : List String) (acc : TrackerState × List Event),
      (runCycleSyms f ec tc emailOk telegramOk acc syms).1.tracking_active
        = acc.1.tracking_active := by
  intro syms
  induction syms with
  | nil => intro acc; rfl
  | cons s rest ih =>
    intro acc
    show (runCycleSyms f ec tc emailOk telegramOk
        (processSymbol f ec tc emailOk telegramOk acc s) rest).1.tracking_active
      = acc.1.tracking_active
    rw [ih, processSymbol_tracking_active]

/-- C4: when the fetch for a symbol returns `NotAvailable` or fails
(the oracle gives `none`), that symbol's step of the cycle is a
complete no-op — no sample is stored, no alert is evaluated, no event
is emitted — and the remaining symbols of the same cycle are processed
exactly as if the failed one were not there; moreover no cycle ever
changes the `tracking_active` flag, so the `while` loop runs on for
any number of cycles and ends only when `stop_tracking` clears the
flag.  (All embedded operations are total Lean functions: the Python
bodies catch their exceptions, so no exception propagates out of a
cycle.) -/
theorem cycle_skips_failed_fetch_and_loop_continues
    (f : String → Option Quote) (ec : Option EmailConfig)
    (tc : Option TelegramConfig) (emailOk telegramOk : String → Bool)
    (sym : String) (hf : f sym = none) :
    (∀ acc, processSymbol f ec tc emailOk telegramOk acc sym = acc) ∧
    (∀ acc rest, runCycleSyms f ec tc emailOk telegramOk acc (sym :: rest)
        = runCycleSyms f ec tc emailOk telegramOk acc rest) ∧
    (∀ st, (runCycle f ec tc emailOk telegramOk st).1.tracking_active
        = st.tracking_active) ∧
    (∀ n st, (loopSteps f ec tc emailOk telegramOk n st).tracking_active
        = st.tracking_active) ∧
    (∀ st, (stop_tracking st).tracking_active = false) := by
  have hskip : ∀ acc, processSymbol f ec tc emailOk telegramOk acc sym = acc := by
    intro acc
    unfold processSymbol
    rw [hf]
  refine ⟨hskip, ?_, ?_, ?_, fun st => rfl⟩
  · intro acc rest
    show runCycleSyms f ec tc emailOk telegramOk
        (processSymbol f ec tc emailOk telegramOk acc sym) rest
      = runCycleSyms f ec tc emailOk telegramOk acc rest
    rw [hskip]
  · intro st
    exact runCycleSyms_tracking_active f ec tc emailOk telegramOk _ _
  · intro n
    induction n with
    | zero => intro st; rfl
    | succ m ih =>
      intro st
      unfold loopSteps
      by_cases h : st.tracking_active
      · rw [if_pos h, ih]
        exact runCycleSyms_tracking_active f ec tc emailOk telegramOk _ _
      · rw [if_neg h]

/-- Witness for C4: with a fetch oracle that always fails, the step
for symbol "ZZZZ" leaves the state untouched and the loop is still
running after five cycles. -/
theorem cycle_skips_failed_fetch_witness :
    processSymbol (fun _ => none) none none (fun _ => true) (fun _ => true)
        (⟨⟨[], [], ["ZZZZ", "AAPL"], 1⟩, true⟩, []) "ZZZZ"
      = (⟨⟨[], [], ["ZZZZ", "AAPL"], 1⟩, true⟩, []) ∧
    (loopSteps (fun _ => none) none none (fun _ => true) (fun _ => true) 5
        ⟨⟨[], [], ["ZZZZ", "AAPL"], 1⟩, true⟩).tracking_active = true := by
  have h := cycle_skips_failed_fetch_and_loop_continues
    (fun _ => none) none none (fun _ => true) (fun _ => true) "ZZZZ" rfl
  exact ⟨h.1 _, h.2.2.2.1 5 _⟩

/-! ## The registry invariant (C3): a fired rule never comes back -/

/-- The database-mutating operations of the core (`StockTracker`
methods; the read-only queries do not change state). -/
inductive CoreOp where
  | createAlert (symbol : String) (k : AlertKind) (threshold : ℚ)
      (email telegram_chat_id : Option String) (now : Datetime)
  | deactivate (i : ℕ)
  | checkAlerts (q : Quote) (ec : Option EmailConfig)
      (tc : Option TelegramConfig) (emailOk telegramOk : String → Bool)
  | storeData (q : Quote)
  | addWatch (s : String)
  | removeWatch (s : String)

/-- Apply one core operation to the database. -/
def applyOp (db : DB) : CoreOp → DB
  | .createAlert s k th e t now => create_alert db s k th e t now
  | .deactivate i => deactivate_alert db i
  | .checkAlerts q ec tc eok tok => (check_alerts db q ec tc eok tok).1
  | .storeData q => store_stock_data db q
  | .addWatch s => add_to_watchlist db s
  | .removeWatch s => remove_from_watchlist db s

/-- Apply a sequence of core operations. -/
def applyOps (db : DB) (ops : List CoreOp) : DB :=
  ops.foldl applyOp db

/-- SQLite's autoincrement invariant for the `alerts` table: every
stored id is below the next id to be handed out (ids are never reused;
no alert row is ever deleted). -/
def idsFresh (db : DB) : Prop :=
  ∀ r ∈ db.alerts, r.id < db.next_alert_id

/-- Rule id `i` exists in the table and every row carrying it is
inactive. -/
def ruleInactive (db : DB) (i : ℕ) : Prop :=
  (∃ r ∈ db.alerts, r.id = i) ∧
  ∀ r ∈ db.alerts, r.id = i → r.is_active = false

/-- `deactivate_alert` preserves freshness and inactivity of any id. -/
theorem deactivate_alert_preserves_inv (i j : ℕ) (db : DB)
    (hf : idsFresh db) (hi : ruleInactive db i) :
    idsFresh (deactivate_alert db j) ∧ ruleInactive (deactivate_alert db j) i := by
  obtain ⟨⟨r0, hr0, hr0i⟩, hall⟩ := hi
  refine ⟨?_, ⟨?_, ?_⟩⟩
  · intro r hr
    simp only [deactivate_alert] at hr ⊢
    rcases List.mem_map.mp hr with ⟨r', hr', rfl⟩
    by_cases hj : r'.id = j
    · simpa [hj] using hf r' hr'
    · simpa [hj] using hf r' hr'
  · refine ⟨if r0.id = j then { r0 with is_active := false } else r0, ?_, ?_⟩
    · simp only [deactivate_alert]
      exact List.mem_map.mpr ⟨r0, hr0, rfl⟩
    · split <;> exact hr0i
  · intro r hr hri
    simp only [deactivate_alert] at hr
    rcases List.mem_map.mp hr with ⟨r', hr', rfl⟩
    by_cases hj : r'.id = j
    · simp [hj]
    · simp only [if_neg hj] at hri ⊢
      exact hall r' hr' hri

/-- `create_alert` preserves freshness and inactivity of any already
present id: the autoincrement id of the new (active) rule is fresh, so
it can never equal the deactivated rule's id. -/
theorem create_alert_preserves_inv (i : ℕ) (db : DB) (s : String)
    (k : AlertKind) (th : ℚ) (e t : Option String) (now : Datetime)
    (hf : idsFresh db) (hi : ruleInactive db i) :
    idsFresh (create_alert db s k th e t now) ∧
    ruleInactive (create_alert db s k th e t now) i := by
  obtain ⟨⟨r0, hr0, hr0i⟩, hall⟩ := hi
  have hlt : i < db.next_alert_id := hr0i ▸ hf r0 hr0
  refine ⟨?_, ⟨⟨r0, ?_, hr0i⟩, ?_⟩⟩
  · intro r hr
    simp only [create_alert, List.mem_append, List.mem_singleton] at hr
    rcases hr with hr | rfl
    · exact Nat.lt_succ_of_lt (hf r hr)
    · exact Nat.lt_succ_self _
  · simp only [create_alert, List.mem_append]
    exact Or.inl hr0
  · intro r hr hri
    simp only [create_alert, List.mem_append, List.mem_singleton] at hr
    rcases hr with hr | rfl
    · exact hall r hr hri
    · exact absurd hri (by simpa using Nat.ne_of_gt hlt)

/-- The database component of one `check_alerts` loop-body step is
either unchanged or a single deactivation. -/
theorem processAlert_fst (q : Quote) (ec : Option EmailConfig)
    (tc : Option TelegramConfig) (eok tok : String → Bool)
    (acc : DB × List Event) (a : AlertRule) :
    (processAlert q ec tc eok tok acc a).1 = acc.1 ∨
    (processAlert q ec tc eok tok acc a).1 = deactivate_alert acc.1 a.id := by
  unfold processAlert
  by_cases h1 : a.symbol ≠ q.symbol
  · left
    rw [if_pos h1]
  · rw [if_neg h1]
    by_cases h2 : triggeredFor a q = true
    · right
      rw [if_pos h2]
    · left
      rw [if_neg h2]

/-- Freshness plus inactivity is preserved by the whole `check_alerts`
fold, which only ever deactivates rules. -/
theorem checkAlerts_fold_preserves_inv (i : ℕ) (q : Quote)
    (ec : Option EmailConfig) (tc : Option TelegramConfig)
    (eok tok : String → Bool) :
    ∀ (l : List AlertRule) (acc : DB × List Event),
      idsFresh acc.1 ∧ ruleInactive acc.1 i →
      idsFresh ((l.foldl (processAlert q ec tc eok tok) acc).1) ∧
      ruleInactive ((l.foldl (processAlert q ec tc eok tok) acc).1) i := by
  intro l
  induction l with
  | nil => intro acc h; exact h
  | cons a rest ih =>
    intro acc h
    show idsFresh ((rest.foldl (processAlert q ec tc eok tok)
        (processAlert q ec tc eok tok acc a)).1) ∧ _
    refine ih _ ?_
    rcases processAlert_fst q ec tc eok tok acc a with he | he
    · rw [he]; exact h
    · rw [he]; exact deactivate_alert_preserves_inv i a.id acc.1 h.1 h.2

/-- C3: once a rule has fired and been deactivated, no sequence of core
operations (creating alerts, deactivations, further alert checks,
sample writes, watchlist edits) ever makes it active again, and
`get_active_alerts` never again returns its id.  The hypothesis
`idsFresh` is SQLite's autoincrement guarantee that stored ids are
below the next id handed out. -/
theorem fired_alert_never_reactivated (db : DB) (i : ℕ) (ops : List CoreOp)
    (hfresh : idsFresh db) (hinact : ruleInactive db i) :
    ruleInactive (applyOps db ops) i ∧
    ∀ r ∈ get_active_alerts (applyOps db ops), r.id ≠ i := by
  have hinv : idsFresh (applyOps db ops) ∧ ruleInactive (applyOps db ops) i := by
    induction ops generalizing db with
    | nil => exact ⟨hfresh, hinact⟩
    | cons op rest ih =>
      show idsFresh (applyOps (applyOp db op) rest) ∧ _
      have hstep : idsFresh (applyOp db op) ∧ ruleInactive (applyOp db op) i := by
        cases op with
        | createAlert s k th e t now =>
          exact create_alert_preserves_inv i db s k th e t now hfresh hinact
        | deactivate j =>
          exact deactivate_alert_preserves_inv i j db hfresh hinact
        | checkAlerts q ec tc eok tok =>
          exact checkAlerts_fold_preserves_inv i q ec tc eok tok
            (get_active_alerts db) (db, []) ⟨hfresh, hinact⟩
        | storeData q => exact ⟨hfresh, hinact⟩
        | addWatch s =>
          show idsFresh (add_to_watchlist db s) ∧
            ruleInactive (add_to_watchlist db s) i
          have halerts : (add_to_watchlist db s).alerts = db.alerts := by
            unfold add_to_watchlist
            split <;> rfl
          have hnext : (add_to_watchlist db s).next_alert_id
              = db.next_alert_id := by
            unfold add_to_watchlist
            split <;> rfl
          constructor
          · intro r hr
            rw [halerts] at hr
            rw [hnext]
            exact hfresh r hr
          · unfold ruleInactive
            rw [halerts]
            exact hinact
        | removeWatch s => exact ⟨hfresh, hinact⟩
      exact ih (applyOp db op) hstep.1 hstep.2
  refine ⟨hinv.2, ?_⟩
  intro r hr hri
  have hmem := (List.mem_filter.mp hr)
  have : r.is_active = false := hinv.2.2 r hmem.1 hri
  rw [this] at hmem
  exact Bool.false_ne_true (by simpa using hmem.2)

/-- A fired (already inactive) rule, used by the C3 witness. -/
def c3Rule : AlertRule :=
  { id := 1, symbol := "AAPL", alert_type := .above, threshold := 200,
    email := none, telegram_chat_id := none, is_active := false,
    created_at := ⟨2026, 1, 1, 0, 0, 0⟩ }

/-- A database holding the fired rule, used by the C3 witness. -/
def c3DB : DB := ⟨[], [c3Rule], ["AAPL"], 2⟩

/-- A sequence of core operations (rule creation, an alert check that
fires the new rule, a redundant deactivation), used by the C3
witness. -/
def c3Ops : List CoreOp :=
  [CoreOp.createAlert "AAPL" .below 100 none none ⟨2026, 1, 2, 0, 0, 0⟩,
   CoreOp.checkAlerts
     { symbol := "AAPL", price := 50, change := 0, change_percent := 0,
       volume := 0, market_cap := none, pe_ratio := none,
       timestamp := ⟨2026, 1, 3, 0, 0, 0⟩ } none none
     (fun _ => true) (fun _ => true),
   CoreOp.deactivate 1]

/-- Witness for C3: after those operations the fired rule 1 stays
inactive and absent from the active list. -/
theorem fired_alert_never_reactivated_witness :
    idsFresh c3DB ∧ ruleInactive c3DB 1 ∧
    (ruleInactive (applyOps c3DB c3Ops) 1 ∧
     ∀ r ∈ get_active_alerts (applyOps c3DB c3Ops), r.id ≠ 1) := by
  have h1 : idsFresh c3DB := by
    intro r hr
    rcases List.mem_singleton.mp hr with rfl
    exact Nat.one_lt_two
  have h2 : ruleInactive c3DB 1 := by
    refine ⟨⟨c3Rule, List.mem_singleton.mpr rfl, rfl⟩, ?_⟩
    intro r hr _
    rcases List.mem_singleton.mp hr with rfl
    rfl
  exact ⟨h1, h2, fired_alert_never_reactivated c3DB 1 c3Ops h1 h2⟩

/-- C9 (amended): the notification message built by `check_alerts`
contains the symbol, the current price (rendered with Python's default
`str()`, *not* forced to two decimals), the signed change and signed
change-percent both formatted to two decimal places, the rule kind,
the threshold (default `str()` rendering), and the fetch timestamp. -/
theorem alertMessage_contents (a : AlertRule) (q : Quote) :
    (q.symbol.data <:+: (alertMessage a q).data) ∧
    (("$" ++ pyFloatStr q.price).data <:+: (alertMessage a q).data) ∧
    ((fmtSigned2 q.change).data <:+: (alertMessage a q).data) ∧
    ((fmtSigned2 q.change_percent ++ "%").data <:+: (alertMessage a q).data) ∧
    ((a.alert_type).str.data <:+: (alertMessage a q).data) ∧
    ((pyFloatStr a.threshold).data <:+: (alertMessage a q).data) ∧
    ((q.timestamp).strftime.data <:+: (alertMessage a q).data) := by
  refine ⟨?_, ?_, ?_, ?_, ?_, ?_, ?_⟩
  · exact ⟨("🚨 Stock Alert Triggered! 🚨\n\nSymbol: " : String).data,
      ("\nCurrent Price: " ++ ("$" ++ pyFloatStr q.price) ++ "\nChange: "
        ++ fmtSigned2 q.change ++ " (" ++ (fmtSigned2 q.change_percent ++ "%")
        ++ ")\nAlert Type: " ++ (a.alert_type).str ++ "\nThreshold: "
        ++ pyFloatStr a.threshold ++ "\nTime: " ++ (q.timestamp).strftime).data,
      by simp [alertMessage, String.data_append, List.append_assoc]⟩
  · exact ⟨("🚨 Stock Alert Triggered! 🚨\n\nSymbol: " : String).data
        ++ q.symbol.data ++ ("\nCurrent Price: " : String).data,
      ("\nChange: " ++ fmtSigned2 q.change ++ " ("
        ++ (fmtSigned2 q.change_percent ++ "%") ++ ")\nAlert Type: "
        ++ (a.alert_type).str ++ "\nThreshold: " ++ pyFloatStr a.threshold
        ++ "\nTime: " ++ (q.timestamp).strftime).data,
      by simp [alertMessage, String.data_append, List.append_assoc]⟩
  · exact ⟨("🚨 Stock Alert Triggered! 🚨\n\nSymbol: " : String).data
        ++ q.symbol.data ++ ("\nCurrent Price: " : String).data
        ++ ("$" ++ pyFloatStr q.price).data ++ ("\nChange: " : String).data,
      (" (" ++ (fmtSigned2 q.change_percent ++ "%") ++ ")\nAlert Type: "
        ++ (a.alert_type).str ++ "\nThreshold: " ++ pyFloatStr a.threshold
        ++ "\nTime: " ++ (q.timestamp).strftime).data,
      by simp [alertMessage, String.data_append, List.append_assoc]⟩
  · exact ⟨("🚨 Stock Alert Triggered! 🚨\n\nSymbol: " : String).data
        ++ q.symbol.data ++ ("\nCurrent Price: " : String).data
        ++ ("$" ++ pyFloatStr q.price).data ++ ("\nChange: " : String).data
        ++ (fmtSigned2 q.change).data ++ (" (" : String).data,
      (")\nAlert Type: " ++ (a.alert_type).str ++ "\nThreshold: "
        ++ pyFloatStr a.threshold ++ "\nTime: " ++ (q.timestamp).strftime).data,
      by simp [alertMessage, String.data_append, List.append_assoc]⟩
  · exact ⟨("🚨 Stock Alert Triggered! 🚨\n\nSymbol: " : String).data
        ++ q.symbol.data ++ ("\nCurrent Price: " : String).data
        ++ ("$" ++ pyFloatStr q.price).data ++ ("\nChange: " : String).data
        ++ (fmtSigned2 q.change).data ++ (" (" : String).data
        ++ (fmtSigned2 q.change_percent ++ "%").data
        ++ (")\nAlert Type: " : String).data,
      ("\nThreshold: " ++ pyFloatStr a.threshold ++ "\nTime: "
        ++ (q.timestamp).strftime).data,
      by simp [alertMessage, String.data_append, List.append_assoc]⟩
  · exact ⟨("🚨 Stock Alert Triggered! 🚨\n\nSymbol: " : String).data
        ++ q.symbol.data ++ ("\nCurrent Price: " : String).data
        ++ ("$" ++ pyFloatStr q.price).data ++ ("\nChange: " : String).data
        ++ (fmtSigned2 q.change).data ++ (" (" : String).data
        ++ (fmtSigned2 q.change_percent ++ "%").data
        ++ (")\nAlert Type: " : String).data ++ (a.alert_type).str.data
        ++ ("\nThreshold: " : String).data,
      ("\nTime: " ++ (q.timestamp).strftime).data,
      by simp [alertMessage, String.data_append, List.append_assoc]⟩
  · exact ⟨("🚨 Stock Alert Triggered! 🚨\n\nSymbol: " : String).data
        ++ q.symbol.data ++ ("\nCurrent Price: " : String).data
        ++ ("$" ++ pyFloatStr q.price).data ++ ("\nChange: " : String).data
        ++ (fmtSigned2 q.change).data ++ (" (" : String).data
        ++ (fmtSigned2 q.change_percent ++ "%").data
        ++ (")\nAlert Type: " : String).data ++ (a.alert_type).str.data
        ++ ("\nThreshold: " : String).data ++ (pyFloatStr a.threshold).data
        ++ ("\nTime: " : String).data,
      ([] : List Char),
      by simp [alertMessage, String.data_append, List.append_assoc]⟩

/-- A triggered rule, used by the C9 counterexample. -/
def c9Alert : AlertRule :=
  { id := 4, symbol := "AAPL", alert_type := .above, threshold := 150,
    email := some "user@example.com", telegram_chat_id := none,
    is_active := true, created_at := ⟨2026, 1, 1, 0, 0, 0⟩ }

/-- A quote at the round price 200, used by the C9 counterexample. -/
def c9Quote : Quote :=
  { symbol := "AAPL", price := 200, change := 0, change_percent := 0,
    volume := 10, market_cap := none, pe_ratio := none,
    timestamp := ⟨2026, 1, 2, 9, 30, 0⟩ }

/-- C9 counterexample: for a quote at price 200.0 the message prints
`Current Price: $200.0` — Python's `str()` of the float — so the
two-decimal rendering `200.00` of the current price claimed by the
spec appears nowhere in the message (the `:+.2f` formatting is applied
only to the change and change-percent fields). -/
theorem alertMessage_price_not_two_decimals :
    alertMessage c9Alert c9Quote
      = "🚨 Stock Alert Triggered! 🚨\n\nSymbol: AAPL\nCurrent Price: $200.0\nChange: +0.00 (+0.00%)\nAlert Type: above\nThreshold: 150.0\nTime: 2026-01-02 09:30:00" ∧
    ¬ (("200.00" : String).data <:+: (alertMessage c9Alert c9Quote).data) ∧
    (("$200.0" : String).data <:+: (alertMessage c9Alert c9Quote).data) := by
  have h200 : roundTE ((200 : ℚ) * 100) = 20000 := by norm_num [roundTE]
  have h0 : roundTE ((0 : ℚ) * 100) = 0 := by norm_num [roundTE]
  have h150 : roundTE ((150 : ℚ) * 100) = 15000 := by norm_num [roundTE]
  have hlt : ¬((0 : ℚ) < 0) := by norm_num
  have hmsg : alertMessage c9Alert c9Quote
      = "🚨 Stock Alert Triggered! 🚨\n\nSymbol: AAPL\nCurrent Price: $200.0\nChange: +0.00 (+0.00%)\nAlert Type: above\nThreshold: 150.0\nTime: 2026-01-02 09:30:00" := by
    simp only [alertMessage, pyFloatStr, fmtSigned2, AlertKind.str,
      Datetime.strftime, pad2, pad4, c9Alert, c9Quote, h200, h0, h150,
      if_neg hlt]
    decide
  refine ⟨hmsg, ?_, ?_⟩
  · rw [hmsg]
    decide
  · rw [hmsg]
    decide

/-- C10: every quote produced by a successful fetch carries its price,
change and change-percent rounded to two decimals (`round(x, 2)` of
the raw resolved values); `store_stock_data` persists exactly those
rounded fields as the sample; and `check_alerts` compares exactly
those rounded fields against the thresholds — so a raw provider price
within half a cent of a threshold evaluates as its rounded value. -/
theorem fetch_rounds_then_stores_and_compares (symbol : String)
    (info : Info) (hist : List ℚ) (now : Datetime) (q : Quote) (p : ℚ)
    (hres : resolvePrice info hist = some p)
    (hq : get_stock_data symbol info hist now = some q) :
    q.price = round2 p ∧
    q.change = round2 (changeOf p info.previousClose) ∧
    q.change_percent = round2 (changePercentOf p info.previousClose) ∧
    (∀ db, (store_stock_data db q).stocks
        = db.stocks ++
          [{ symbol := q.symbol, price := round2 p,
             change_percent := round2 (changePercentOf p info.previousClose),
             volume := q.volume, timestamp := q.timestamp }]) ∧
    (∀ a : AlertRule, a.symbol = q.symbol →
      (evalAlert a q = true ↔
        match a.alert_type with
        | .above => round2 p ≥ a.threshold
        | .below => round2 p ≤ a.threshold
        | .change_above =>
          round2 (changePercentOf p info.previousClose) ≥ a.threshold
        | .change_below =>
          round2 (changePercentOf p info.previousClose) ≤ a.threshold)) := by
  rw [get_stock_data, hres] at hq
  replace hq : some
      ({ symbol := pyUpper symbol, price := round2 p,
         change := round2 (changeOf p info.previousClose),
         change_percent := round2 (changePercentOf p info.previousClose),
         volume := info.volume.getD 0, market_cap := info.marketCap,
         pe_ratio := info.trailingPE, timestamp := now } : Quote) = some q := hq
  obtain rfl := (Option.some.injEq _ _).mp hq
  refine ⟨rfl, rfl, rfl, fun db => rfl, ?_⟩
  intro a ha
  rw [evalAlert_of_symbol_eq a _ ha]
  exact triggeredFor_eq a _

/-- The provider info for the C10 witness: raw live price 199.996
(within half a cent of 200), previous close 200. -/
def c10Info : Info :=
  ⟨some (199996 / 1000), none, some 200, some 5000, none, none⟩

/-- The quote the C10 witness fetch produces: all derived fields
rounded to two decimals (price 200, change 0, change-percent 0). -/
def c10Quote : Quote :=
  { symbol := "AAPL", price := 200, change := 0, change_percent := 0,
    volume := 5000, market_cap := none, pe_ratio := none,
    timestamp := ⟨2026, 1, 2, 9, 30, 0⟩ }

/-- An `above` rule at threshold 200, used by the C10 witness. -/
def c10Rule : AlertRule :=
  { id := 3, symbol := "AAPL", alert_type := .above, threshold := 200,
    email := none, telegram_chat_id := none, is_active := true,
    created_at := ⟨2026, 1, 1, 0, 0, 0⟩ }

/-- Witness for C10: the raw price 199.996 is fetched as the rounded
quote price 200.00, and the `above`-200 rule triggers on it (the raw
price is below the threshold, the rounded one is at it). -/
theorem fetch_rounds_then_stores_and_compares_witness :
    resolvePrice c10Info [] = some (199996 / 1000) ∧
    get_stock_data "AAPL" c10Info [] ⟨2026, 1, 2, 9, 30, 0⟩ = some c10Quote ∧
    c10Quote.price = round2 (199996 / 1000) ∧
    (199996 / 1000 : ℚ) < 200 ∧
    evalAlert c10Rule c10Quote = true := by
  have hres : resolvePrice c10Info [] = some (199996 / 1000) := by
    norm_num [resolvePrice, c10Info, pyOr, truthyOpt]
  have hq : get_stock_data "AAPL" c10Info [] ⟨2026, 1, 2, 9, 30, 0⟩
      = some c10Quote := by
    rw [get_stock_data, hres]
    have h1 : round2 (199996 / 1000 : ℚ) = 200 := by
      norm_num [round2, roundTE]
    have h2 : round2 (changeOf (199996 / 1000) c10Info.previousClose) = 0 := by
      norm_num [round2, roundTE, changeOf, c10Info]
    have h3 : round2 (changePercentOf (199996 / 1000) c10Info.previousClose)
        = 0 := by
      norm_num [round2, roundTE, changePercentOf, c10Info]
    show some
      ({ symbol := pyUpper "AAPL", price := round2 (199996 / 1000),
         change := round2 (changeOf (199996 / 1000) c10Info.previousClose),
         change_percent :=
           round2 (changePercentOf (199996 / 1000) c10Info.previousClose),
         volume := c10Info.volume.getD 0, market_cap := c10Info.marketCap,
         pe_ratio := c10Info.trailingPE,
         timestamp := ⟨2026, 1, 2, 9, 30, 0⟩ } : Quote) = some c10Quote
    rw [h1, h2, h3]
    rfl
  have h := fetch_rounds_then_stores_and_compares "AAPL" c10Info []
    ⟨2026, 1, 2, 9, 30, 0⟩ c10Quote (199996 / 1000) hres hq
  refine ⟨hres, hq, h.1, by norm_num, ?_⟩
  exact (h.2.2.2.2 c10Rule rfl).mpr (by norm_num [round2, roundTE, c10Rule])

end StockTrackerPro
